import Mathlib

/-!
Shallow embedding of the complaint intake and lifecycle pipeline of the
Nagar-Rakshak repository.

Embedded functions, translated from the source:
  * `mapAuthorityForIssue`, `handleSubmit`, `handleMediaUpload` from
    src/components/ComplaintRegistration.tsx;
  * `createNotification`, `createComplaintNotifications` from
    src/services/notificationService.ts.

External calls (blob upload, complaint insert, status update, status-history
insert, image classification) are modelled by an environment record that fixes
the outcome of each call; the supabase client returns errors as values rather
than throwing, so the two routing calls, whose results the source never
inspects, are modelled as unchecked writes that apply exactly when their
outcome is error-free.  The side effects of one submission are collected in a
trace of store writes.
-/

/-- ASCII lower-casing of one character, the effect of the JS
`toLowerCase` on the ASCII issue-type tokens. -/
def jsCharToLower (c : Char) : Char :=
  if 65 ≤ c.toNat ∧ c.toNat ≤ 90 then Char.ofNat (c.toNat + 32) else c

/-- Lower-casing of a string, character by character. -/
def jsToLower (s : String) : String :=
  String.mk (s.data.map jsCharToLower)

/-- `leadsWith pat s` is true when `pat` is an initial run of `s`. -/
def leadsWith : List Char → List Char → Bool
  | [], _ => true
  | _ :: _, [] => false
  | a :: as, b :: bs => a == b && leadsWith as bs

/-- `includesChars pat s` is true when `pat` occurs contiguously in `s`. -/
def includesChars (pat : List Char) : List Char → Bool
  | [] => leadsWith pat []
  | c :: rest => leadsWith pat (c :: rest) || includesChars pat rest

/-- The JS `String.prototype.includes`, on the character lists of the strings. -/
def jsIncludes (s pat : String) : Bool :=
  includesChars pat.data s.data

/-- `mapAuthorityForIssue` from ComplaintRegistration.tsx: ordered,
first-match-wins, case-insensitive substring routing of an issue-type token
to an authority, or `none`. -/
def mapAuthorityForIssue (issue : String) : Option String :=
  let normalized := jsToLower issue
  if jsIncludes normalized "electric" then some "Electricity Department"
  else if jsIncludes normalized "water" || jsIncludes normalized "drain" then
    some "Jal Board / Water Supply Department"
  else if jsIncludes normalized "garbage" then
    some "Nagar Nigam / Municipal Corporation"
  else if jsIncludes normalized "pothole" || jsIncludes normalized "road" then
    some "Public Works Department (PWD)"
  else if jsIncludes normalized "street" then
    some "Nagar Nigam / Municipal Corporation (Street Lighting Division)"
  else if jsIncludes normalized "transport" then
    some "Local Transport Authority / RTO"
  else if jsIncludes normalized "noise" then
    some "Pollution Control Board / Local Police Authority"
  else none

/-- An uploaded file, identified by its name. -/
structure MediaFile where
  name : String
deriving DecidableEq

/-- The `formData` state of ComplaintRegistration.tsx.  A field the user has
not filled holds the empty string, matching the component state initialiser. -/
structure FormData where
  state : String
  city : String
  district : String
  address1 : String
  address2 : String
  issueType : String
  description : String
  media : Option MediaFile
  audio : Option MediaFile
deriving DecidableEq

/-- Outcome of one external call: a value, or an error message. -/
inductive CallResult (α : Type) where
  | ok (val : α)
  | err (msg : String)
deriving DecidableEq

/-- The row returned by the complaint insert: the store-assigned id and the
store-generated complaint code. -/
structure InsertedComplaint where
  id : String
  complaint_code : String
deriving DecidableEq

/-- Outcomes of the external calls one submission can make.  The blob upload
and the complaint insert are checked by the source (`throw` on error); the
status update and the status-history insert return their errors unread, so
only an error-free outcome results in a store write. -/
structure SubmitEnv where
  uploadResult : CallResult String
  insertResult : CallResult InsertedComplaint
  updateError : Option String
  statusInsertError : Option String
deriving DecidableEq

/-- A complaint row as stored: the insert payload of handleSubmit plus the
store-assigned id, code, and the initial Pending status. -/
structure StoredComplaint where
  id : String
  code : String
  state : String
  city : String
  address_line1 : Option String
  address_line2 : Option String
  issue_type : String
  description : String
  media_url : Option String
  voice_note_url : Option String
  status : String
  assigned_to : Option String
deriving DecidableEq

/-- A row of complaint_status_updates as inserted by the routing step. -/
structure StatusUpdateRow where
  complaint_id : String
  status : String
  assigned_to : Option String
  note : String
deriving DecidableEq

/-- The payload of the status update call on the complaints table. -/
structure StatusPatch where
  id : String
  status : String
  assigned_to : String
deriving DecidableEq

/-- The store writes performed by one submission.  `schedulerArms` records the
calls handed to `createComplaintNotifications`; the source handleSubmit makes
none, and the field exists to state that fact. -/
structure SubmitTrace where
  blobWrites : List String
  complaintInserts : List StoredComplaint
  updates : List StatusPatch
  statusInserts : List StatusUpdateRow
  schedulerArms : List (String × String × String)
deriving DecidableEq

/-- The trace with no writes. -/
def emptyTrace : SubmitTrace :=
  { blobWrites := [], complaintInserts := [], updates := [],
    statusInserts := [], schedulerArms := [] }

/-- Caller-visible outcome of handleSubmit: early validation return, an abort
from the catch block tagged by the call that threw, or the success path
carrying the store-generated complaint code. -/
inductive SubmitResult where
  | validationFailed
  | mediaUploadFailed (msg : String)
  | persistenceFailed (msg : String)
  | success (code : String)
deriving DecidableEq

/-- `formData.address1 || null` from the insert payload. -/
def strOrNull (s : String) : Option String :=
  if s = "" then none else some s

/-- The address_line2 value of the insert payload: district merged with
address line 2 when a district was given, otherwise address line 2 or null. -/
def addressLine2 (fd : FormData) : Option String :=
  if fd.district ≠ "" then
    some (fd.district ++ (if fd.address2 ≠ "" then ", " ++ fd.address2 else ""))
  else if fd.address2 ≠ "" then some fd.address2
  else none

/-- The part of handleSubmit after the media branch: insert the complaint row
(abort on error), then auto-assign routing.  The two routing calls return
errors that the source never reads, so each writes exactly when its outcome
in the environment is error-free, and the result is the success carrying the
complaint code either way. -/
def insertStep (fd : FormData) (env : SubmitEnv) (mediaUrl : Option String)
    (tr : SubmitTrace) : SubmitResult × SubmitTrace :=
  match env.insertResult with
  | .err e => (.persistenceFailed e, tr)
  | .ok row =>
    let stored : StoredComplaint :=
      { id := row.id, code := row.complaint_code, state := fd.state,
        city := fd.city, address_line1 := strOrNull fd.address1,
        address_line2 := addressLine2 fd, issue_type := fd.issueType,
        description := fd.description, media_url := mediaUrl,
        voice_note_url := none, status := "Pending", assigned_to := none }
    let tr1 := { tr with complaintInserts := tr.complaintInserts ++ [stored] }
    match mapAuthorityForIssue fd.issueType with
    | some authority =>
      let tr2 :=
        if env.updateError = none then
          { tr1 with updates := tr1.updates ++
              [{ id := row.id, status := "Assigned", assigned_to := authority }] }
        else tr1
      let tr3 :=
        if env.statusInsertError = none then
          { tr2 with statusInserts := tr2.statusInserts ++
              [{ complaint_id := row.id, status := "Assigned",
                 assigned_to := some authority,
                 note := "Auto-routed based on issue type: " ++ fd.issueType }] }
        else tr2
      (.success row.complaint_code, tr3)
    | none => (.success row.complaint_code, tr1)

/-- `handleSubmit` from ComplaintRegistration.tsx.  Falsy required fields are
rejected before any external call; an attached media file is uploaded first
and an upload error aborts before the insert; the upload success records the
blob write under the file name. -/
def handleSubmit (fd : FormData) (env : SubmitEnv) : SubmitResult × SubmitTrace :=
  if fd.state = "" ∨ fd.city = "" ∨ fd.issueType = "" ∨ fd.description = "" then
    (.validationFailed, emptyTrace)
  else
    match fd.media, env.uploadResult with
    | some _, .err e => (.mediaUploadFailed e, emptyTrace)
    | some m, .ok url =>
      insertStep fd env (some url) { emptyTrace with blobWrites := [m.name] }
    | none, _ => insertStep fd env none emptyTrace

/-- Apply one status patch to a stored complaint, as the store serves the
update call. -/
def applyPatch (p : StatusPatch) (c : StoredComplaint) : StoredComplaint :=
  if c.id = p.id then
    { c with status := p.status, assigned_to := some p.assigned_to }
  else c

/-- The complaint rows as read back after a submission: the inserted rows
with every recorded status patch applied. -/
def finalComplaints (tr : SubmitTrace) : List StoredComplaint :=
  tr.updates.foldl (fun cs p => cs.map (applyPatch p)) tr.complaintInserts

/-- The parsed response of the analyze-complaint-image call: either the data
object with its relevance flag, description and reason, or the error the
source throws on. -/
inductive AnalysisResponse where
  | ok (is_relevant : Bool) (description : String) (reason : String)
  | err (msg : String)
deriving DecidableEq

/-- The branch taken by handleMediaUpload, one constructor per exit of the
source function. -/
inductive UploadOutcome where
  | noFile
  | issueTypeMissing
  | analyzed
  | irrelevant
  | analysisFailed
deriving DecidableEq

/-- `handleMediaUpload` from ComplaintRegistration.tsx: no-ops without a file
or issue type; otherwise it stores the file and clears the description, then
branches on the classification response — relevant adopts the generated
description, irrelevant clears the held media, a thrown error leaves the
post-clear state for manual entry. -/
def handleMediaUpload (fd : FormData) (file : Option MediaFile)
    (resp : AnalysisResponse) : UploadOutcome × FormData :=
  match file with
  | none => (.noFile, fd)
  | some f =>
    if fd.issueType = "" then (.issueTypeMissing, fd)
    else
      let fd1 := { fd with media := some f, description := "" }
      match resp with
      | .err _ => (.analysisFailed, fd1)
      | .ok true d _ => (.analyzed, { fd1 with description := d })
      | .ok false _ _ => (.irrelevant, { fd1 with media := none })

/-- A row of the notifications table as inserted by the service. -/
structure NotificationRow where
  complaint_id : String
  complaint_code : String
  stage : String
  message : String
  user_id : String
  is_read : Bool
deriving DecidableEq

/-- `createNotification` from notificationService.ts: the row one emission
inserts.  Its own persistence error is caught and logged inside the function,
so an emission never affects any other. -/
def createNotification (complaintId complaintCode stage message userId : String) :
    NotificationRow :=
  { complaint_id := complaintId, complaint_code := complaintCode,
    stage := stage, message := message, user_id := userId, is_read := false }

/-- `createComplaintNotifications` from notificationService.ts: the three
stage emissions armed for one complaint, each paired with its delay in
milliseconds (0 for the immediately awaited confirmation, then the two
setTimeout delays).  Emission order follows increasing delay. -/
def createComplaintNotifications (complaintId complaintCode issueType : String) :
    List (Nat × NotificationRow) :=
  [ (0, createNotification complaintId complaintCode "confirmation"
      ("Your complaint " ++ complaintCode ++ " for " ++ issueType ++
        " has been registered successfully. We will review it shortly.")
      "anonymous"),
    (5000, createNotification complaintId complaintCode "acknowledgement"
      ("Your complaint " ++ complaintCode ++
        " has been acknowledged and assigned to the appropriate department.")
      "anonymous"),
    (30000, createNotification complaintId complaintCode "resolution"
      ("Your complaint " ++ complaintCode ++
        " has been resolved. Thank you for your patience.")
      "anonymous") ]

/-! Concrete sample inputs used by witnesses and counterexamples. -/

/-- The end-to-end scenario form of the spec: Delhi, electricity, no media. -/
def fdDelhi : FormData :=
  { state := "Delhi", city := "Delhi", district := "", address1 := "",
    address2 := "", issueType := "electricity",
    description := "No power since morning", media := none, audio := none }

/-- The same form with every field filled but the city left empty. -/
def fdMissingCity : FormData :=
  { fdDelhi with city := "" }

/-- The Delhi form with a media file attached. -/
def fdDelhiWithMedia : FormData :=
  { fdDelhi with media := some { name := "outage.jpg" } }

/-- A form of issue type others, which resolves to no authority. -/
def fdOthers : FormData :=
  { fdDelhi with issueType := "others", description := "Fallen tree" }

/-- A water-issue form whose description the user already typed by hand. -/
def fdPreDescribed : FormData :=
  { fdDelhi with
    issueType := "water",
    description := "Leaking pipe near the gate" }

/-- An environment in which every external call succeeds. -/
def envAllOk : SubmitEnv :=
  { uploadResult := .ok "https://blob/complaints/1.jpg",
    insertResult := .ok { id := "id-1", complaint_code := "NGR123456" },
    updateError := none, statusInsertError := none }

/-- Upload and insert succeed; both routing calls report errors. -/
def envRoutingDown : SubmitEnv :=
  { envAllOk with
    updateError := some "update failed",
    statusInsertError := some "status insert failed" }

/-- Upload, insert and the status update succeed; the status-history insert
reports an error. -/
def envStatusInsertDown : SubmitEnv :=
  { envAllOk with statusInsertError := some "status insert failed" }

/-- The blob upload fails. -/
def envUploadDown : SubmitEnv :=
  { envAllOk with uploadResult := .err "storage unavailable" }

/-! Shared lemmas. -/

/-- On a form with all required fields filled, a working upload (or no media)
and a working insert, handleSubmit reaches the success result carrying the
store-generated complaint code, whatever the outcomes of the two routing
calls. -/
theorem submit_ok_result (fd : FormData) (env : SubmitEnv)
    (row : InsertedComplaint)
    (hs : fd.state ≠ "") (hc : fd.city ≠ "") (hi : fd.issueType ≠ "")
    (hd : fd.description ≠ "")
    (hup : fd.media = none ∨ ∃ url, env.uploadResult = CallResult.ok url)
    (hins : env.insertResult = CallResult.ok row) :
    (handleSubmit fd env).1 = SubmitResult.success row.complaint_code := by
  unfold handleSubmit
  rw [if_neg (by simp [hs, hc, hi, hd])]
  have step : ∀ mu tr, (insertStep fd env mu tr).1 =
      SubmitResult.success row.complaint_code := by
    intro mu tr
    unfold insertStep
    rw [hins]
    cases mapAuthorityForIssue fd.issueType <;> simp
  cases hmedia : fd.media with
  | none => exact step none emptyTrace
  | some m =>
    rcases hup with hm | ⟨url, hu⟩
    · rw [hmedia] at hm; cases hm
    · rw [hu]; exact step (some url) _

/-- The trace of insertStep carries the schedulerArms of its input trace
unchanged: the source handleSubmit never calls the notification service. -/
theorem insertStep_arms (fd : FormData) (env : SubmitEnv)
    (mu : Option String) (tr : SubmitTrace) :
    (insertStep fd env mu tr).2.schedulerArms = tr.schedulerArms := by
  unfold insertStep
  cases env.insertResult with
  | err e => rfl
  | ok row =>
    cases mapAuthorityForIssue fd.issueType with
    | none => rfl
    | some a =>
      dsimp only
      split <;> split <;> rfl

/-! Claim theorems. -/

/-- Claim C1: when any of state, city, issueType or description is absent or
empty, handleSubmit returns the validation failure before any external call
is attempted, and the trace records no write to the complaint store, the blob
store or the notification sink. -/
theorem C1_validation_failed_no_partial_writes (fd : FormData) (env : SubmitEnv)
    (h : fd.state = "" ∨ fd.city = "" ∨ fd.issueType = "" ∨ fd.description = "") :
    handleSubmit fd env = (SubmitResult.validationFailed, emptyTrace) := by
  unfold handleSubmit
  rw [if_pos h]

/-- Witness for C1 at the missing-city form of the spec scenario. -/
theorem C1_validation_failed_no_partial_writes_witness :
    fdMissingCity.city = "" ∧
    handleSubmit fdMissingCity envAllOk =
      (SubmitResult.validationFailed, emptyTrace) :=
  ⟨rfl, C1_validation_failed_no_partial_writes fdMissingCity envAllOk
    (Or.inr (Or.inl rfl))⟩

/-- Claim C2: once the complaint row has been inserted, failures of the
status update or the status-history append are swallowed: the caller still
receives the success result carrying the generated complaint code, whatever
the outcomes of the two routing calls in the environment. -/
theorem C2_routing_failure_swallowed (fd : FormData) (env : SubmitEnv)
    (row : InsertedComplaint)
    (hs : fd.state ≠ "") (hc : fd.city ≠ "") (hi : fd.issueType ≠ "")
    (hd : fd.description ≠ "")
    (hup : fd.media = none ∨ ∃ url, env.uploadResult = CallResult.ok url)
    (hins : env.insertResult = CallResult.ok row) :
    (handleSubmit fd env).1 = SubmitResult.success row.complaint_code :=
  submit_ok_result fd env row hs hc hi hd hup hins

/-- Witness for C2: both routing calls fail, the caller still gets the
success result with the complaint code. -/
theorem C2_routing_failure_swallowed_witness :
    envRoutingDown.updateError ≠ none ∧
    envRoutingDown.statusInsertError ≠ none ∧
    (handleSubmit fdDelhi envRoutingDown).1 = SubmitResult.success "NGR123456" :=
  ⟨by decide, by decide,
    C2_routing_failure_swallowed fdDelhi envRoutingDown
      { id := "id-1", complaint_code := "NGR123456" }
      (by decide) (by decide) (by decide) (by decide) (Or.inl rfl) rfl⟩

/-- Claim C4 (code bug): the submission pipeline never hands the new
complaint to the notification scheduler — on the end-to-end scenario input
the submission succeeds yet the trace records no call to
createComplaintNotifications, and for every form and environment the
recorded scheduler calls are empty, so no Notification rows arise from a
submission. -/
theorem C4_scheduler_never_armed :
    ((handleSubmit fdDelhi envAllOk).1 = SubmitResult.success "NGR123456" ∧
      (handleSubmit fdDelhi envAllOk).2.schedulerArms = []) ∧
    ∀ fd env, (handleSubmit fd env).2.schedulerArms = [] := by
  refine ⟨⟨rfl, rfl⟩, ?_⟩
  intro fd env
  unfold handleSubmit
  split
  · rfl
  · split
    · rfl
    · exact insertStep_arms fd env _ _
    · exact insertStep_arms fd env _ _

/-- Claim C5: arming one complaint schedules exactly the three stages
confirmation, acknowledgement, resolution, at delays 0, 5000 and 30000
milliseconds, and the delays are strictly increasing, so a later stage is
never emitted before an earlier one for the same complaint. -/
theorem C5_schedule_three_ordered_stages (cid code issueType : String) :
    (createComplaintNotifications cid code issueType).map (fun j => j.2.stage) =
      ["confirmation", "acknowledgement", "resolution"] ∧
    (createComplaintNotifications cid code issueType).map Prod.fst =
      [0, 5000, 30000] ∧
    List.Chain' (· < ·)
      ((createComplaintNotifications cid code issueType).map Prod.fst) := by
  refine ⟨rfl, rfl, ?_⟩
  have h : (createComplaintNotifications cid code issueType).map Prod.fst =
      [0, 5000, 30000] := rfl
  rw [h]
  norm_num [List.chain'_cons]

/-- Claim C6: the routing policy on the closed issue-type set, the transport
rule, and case-insensitivity on an upper-cased token. -/
theorem C6_routing_policy :
    mapAuthorityForIssue "streetlight" =
      some "Nagar Nigam / Municipal Corporation (Street Lighting Division)" ∧
    mapAuthorityForIssue "pothole" = some "Public Works Department (PWD)" ∧
    mapAuthorityForIssue "garbage" = some "Nagar Nigam / Municipal Corporation" ∧
    mapAuthorityForIssue "drainage" = some "Jal Board / Water Supply Department" ∧
    mapAuthorityForIssue "water" = some "Jal Board / Water Supply Department" ∧
    mapAuthorityForIssue "electricity" = some "Electricity Department" ∧
    mapAuthorityForIssue "noise" =
      some "Pollution Control Board / Local Police Authority" ∧
    mapAuthorityForIssue "others" = none ∧
    mapAuthorityForIssue "transport" = some "Local Transport Authority / RTO" ∧
    mapAuthorityForIssue "ELECTRICITY" = mapAuthorityForIssue "electricity" :=
  ⟨rfl, rfl, rfl, rfl, rfl, rfl, rfl, rfl, rfl, rfl⟩

/-- Claim C7: with media attached, a blob-upload failure aborts the whole
submission with the media-upload failure and the empty trace — in particular
the complaint row is never inserted. -/
theorem C7_upload_failure_aborts (fd : FormData) (env : SubmitEnv)
    (m : MediaFile) (e : String)
    (hs : fd.state ≠ "") (hc : fd.city ≠ "") (hi : fd.issueType ≠ "")
    (hd : fd.description ≠ "")
    (hm : fd.media = some m) (hu : env.uploadResult = CallResult.err e) :
    handleSubmit fd env = (SubmitResult.mediaUploadFailed e, emptyTrace) := by
  unfold handleSubmit
  rw [if_neg (by simp [hs, hc, hi, hd])]
  rw [hm, hu]

/-- Witness for C7 at the Delhi form with media and a failing blob store. -/
theorem C7_upload_failure_aborts_witness :
    fdDelhiWithMedia.media = some { name := "outage.jpg" } ∧
    envUploadDown.uploadResult = CallResult.err "storage unavailable" ∧
    handleSubmit fdDelhiWithMedia envUploadDown =
      (SubmitResult.mediaUploadFailed "storage unavailable", emptyTrace) :=
  ⟨rfl, rfl,
    C7_upload_failure_aborts fdDelhiWithMedia envUploadDown
      { name := "outage.jpg" } "storage unavailable"
      (by decide) (by decide) (by decide) (by decide) rfl rfl⟩

/-- On a form with the required fields filled and a working upload (or no
media), handleSubmit is insertStep on some media url and a starting trace
that records no store write yet. -/
theorem submit_eq_insertStep (fd : FormData) (env : SubmitEnv)
    (hs : fd.state ≠ "") (hc : fd.city ≠ "") (hi : fd.issueType ≠ "")
    (hd : fd.description ≠ "")
    (hup : fd.media = none ∨ ∃ url, env.uploadResult = CallResult.ok url) :
    ∃ mu tr0, handleSubmit fd env = insertStep fd env mu tr0 ∧
      tr0.updates = [] ∧ tr0.statusInserts = [] ∧ tr0.complaintInserts = [] := by
  unfold handleSubmit
  rw [if_neg (by simp [hs, hc, hi, hd])]
  cases hmedia : fd.media with
  | none => exact ⟨none, emptyTrace, rfl, rfl, rfl, rfl⟩
  | some m =>
    rcases hup with hm | ⟨url, hu⟩
    · rw [hmedia] at hm; cases hm
    · rw [hu]
      exact ⟨some url, _, rfl, rfl, rfl, rfl⟩

/-- With a working insert, insertStep appends exactly one stored complaint
row, with status Pending and no assignee. -/
theorem insertStep_trace_rows (fd : FormData) (env : SubmitEnv)
    (row : InsertedComplaint) (mu : Option String) (tr : SubmitTrace)
    (hins : env.insertResult = CallResult.ok row) :
    (insertStep fd env mu tr).2.complaintInserts = tr.complaintInserts ++
      [{ id := row.id, code := row.complaint_code, state := fd.state,
         city := fd.city, address_line1 := strOrNull fd.address1,
         address_line2 := addressLine2 fd, issue_type := fd.issueType,
         description := fd.description, media_url := mu,
         voice_note_url := none, status := "Pending", assigned_to := none }] := by
  unfold insertStep
  rw [hins]
  cases mapAuthorityForIssue fd.issueType with
  | none => rfl
  | some auth =>
    dsimp only
    split <;> split <;> rfl

/-- With a working insert and a resolved authority, each of the two routing
writes of insertStep is appended exactly when its own call is error-free. -/
theorem insertStep_trace_auth (fd : FormData) (env : SubmitEnv)
    (row : InsertedComplaint) (mu : Option String) (tr : SubmitTrace)
    (auth : String)
    (hins : env.insertResult = CallResult.ok row)
    (hmap : mapAuthorityForIssue fd.issueType = some auth) :
    ((insertStep fd env mu tr).2.updates =
      if env.updateError = none then
        tr.updates ++
          [{ id := row.id, status := "Assigned", assigned_to := auth }]
      else tr.updates) ∧
    ((insertStep fd env mu tr).2.statusInserts =
      if env.statusInsertError = none then
        tr.statusInserts ++
          [{ complaint_id := row.id, status := "Assigned",
             assigned_to := some auth,
             note := "Auto-routed based on issue type: " ++ fd.issueType }]
      else tr.statusInserts) := by
  unfold insertStep
  rw [hins, hmap]
  by_cases h1 : env.updateError = none <;>
    by_cases h2 : env.statusInsertError = none <;>
      simp [h1, h2]

/-- With a working insert and no resolved authority, insertStep performs no
routing write. -/
theorem insertStep_trace_none (fd : FormData) (env : SubmitEnv)
    (row : InsertedComplaint) (mu : Option String) (tr : SubmitTrace)
    (hins : env.insertResult = CallResult.ok row)
    (hmap : mapAuthorityForIssue fd.issueType = none) :
    (insertStep fd env mu tr).2.updates = tr.updates ∧
    (insertStep fd env mu tr).2.statusInserts = tr.statusInserts := by
  unfold insertStep
  rw [hins, hmap]
  exact ⟨rfl, rfl⟩

/-- Counterexample to C3: on the Delhi electricity form with a working insert
and status update but a failing status-history append, the submission
succeeds, the issue type resolves to an authority and the stored complaint
reads Assigned, yet no StatusUpdate row exists — the transition was not
atomic with the append and the claimed exactly-one row fails. -/
theorem C3_counterexample :
    (handleSubmit fdDelhi envStatusInsertDown).1 =
      SubmitResult.success "NGR123456" ∧
    mapAuthorityForIssue fdDelhi.issueType = some "Electricity Department" ∧
    (finalComplaints (handleSubmit fdDelhi envStatusInsertDown).2).map
      StoredComplaint.status = ["Assigned"] ∧
    (handleSubmit fdDelhi envStatusInsertDown).2.statusInserts = [] :=
  ⟨rfl, rfl, rfl, rfl⟩

/-- Claim C3 as amended: when an authority resolves, the pipeline issues the
Assigned update and the single StatusUpdate append as two separate
best-effort calls — each write lands exactly when its own call is error-free,
the appended row carrying assignedTo and the auto-routed note naming the
issue type — and when no authority resolves, no update and no StatusUpdate
row are issued and the complaint remains Pending. -/
theorem C3_amended_best_effort_routing (fd : FormData) (env : SubmitEnv)
    (row : InsertedComplaint)
    (hs : fd.state ≠ "") (hc : fd.city ≠ "") (hi : fd.issueType ≠ "")
    (hd : fd.description ≠ "")
    (hup : fd.media = none ∨ ∃ url, env.uploadResult = CallResult.ok url)
    (hins : env.insertResult = CallResult.ok row) :
    (∀ auth, mapAuthorityForIssue fd.issueType = some auth →
      ((handleSubmit fd env).2.updates =
        if env.updateError = none then
          [{ id := row.id, status := "Assigned", assigned_to := auth }]
        else []) ∧
      ((handleSubmit fd env).2.statusInserts =
        if env.statusInsertError = none then
          [{ complaint_id := row.id, status := "Assigned",
             assigned_to := some auth,
             note := "Auto-routed based on issue type: " ++ fd.issueType }]
        else [])) ∧
    (mapAuthorityForIssue fd.issueType = none →
      (handleSubmit fd env).2.updates = [] ∧
      (handleSubmit fd env).2.statusInserts = [] ∧
      (finalComplaints (handleSubmit fd env).2).map StoredComplaint.status =
        ["Pending"]) := by
  obtain ⟨mu, tr0, heq, hu0, hs0, hc0⟩ :=
    submit_eq_insertStep fd env hs hc hi hd hup
  constructor
  · intro auth hmap
    obtain ⟨hupd, hsta⟩ := insertStep_trace_auth fd env row mu tr0 auth hins hmap
    rw [hu0] at hupd
    rw [hs0] at hsta
    constructor
    · rw [heq, hupd]
      split <;> rfl
    · rw [heq, hsta]
      split <;> rfl
  · intro hmap
    obtain ⟨hupd, hsta⟩ := insertStep_trace_none fd env row mu tr0 hins hmap
    have hrows := insertStep_trace_rows fd env row mu tr0 hins
    refine ⟨?_, ?_, ?_⟩
    · rw [heq, hupd, hu0]
    · rw [heq, hsta, hs0]
    · rw [heq]
      unfold finalComplaints
      rw [hupd, hu0, hrows, hc0]
      rfl

/-- Witness for the amended C3 at the Delhi electricity form with every call
succeeding: the Assigned update and exactly one StatusUpdate row with the
authority and the auto-routed note. -/
theorem C3_amended_best_effort_routing_witness :
    (handleSubmit fdDelhi envAllOk).2.updates =
      [{ id := "id-1", status := "Assigned",
         assigned_to := "Electricity Department" }] ∧
    (handleSubmit fdDelhi envAllOk).2.statusInserts =
      [{ complaint_id := "id-1", status := "Assigned",
         assigned_to := some "Electricity Department",
         note := "Auto-routed based on issue type: electricity" }] := by
  have h := (C3_amended_best_effort_routing fdDelhi envAllOk
      { id := "id-1", complaint_code := "NGR123456" }
      (by decide) (by decide) (by decide) (by decide) (Or.inl rfl) rfl).1
      "Electricity Department" rfl
  exact ⟨h.1.trans rfl, h.2.trans rfl⟩

/-- Counterexample to C8: on a form whose description the user typed before
the upload, an irrelevant-image response clears the held media but also
leaves the description empty, not untouched from before the upload attempt —
the pre-upload description was cleared when the upload began and is never
restored. -/
theorem C8_counterexample :
    (handleMediaUpload fdPreDescribed (some { name := "leak.jpg" })
      (AnalysisResponse.ok false "" "Not a water issue")).2.media = none ∧
    (handleMediaUpload fdPreDescribed (some { name := "leak.jpg" })
        (AnalysisResponse.ok false "" "Not a water issue")).2.description ≠
      fdPreDescribed.description :=
  ⟨rfl, by decide⟩

/-- With an issue type chosen, the relevant-response branch of
handleMediaUpload holds the file and adopts the generated description. -/
theorem mediaUpload_ok_true_form (fd : FormData) (f : MediaFile) (d r : String)
    (hi : fd.issueType ≠ "") :
    handleMediaUpload fd (some f) (AnalysisResponse.ok true d r) =
      (UploadOutcome.analyzed,
        { fd with media := some f, description := d }) := by
  simp only [handleMediaUpload, if_neg hi]

/-- With an issue type chosen, the irrelevant-response branch of
handleMediaUpload clears the held media and keeps the cleared description. -/
theorem mediaUpload_ok_false_form (fd : FormData) (f : MediaFile) (d r : String)
    (hi : fd.issueType ≠ "") :
    handleMediaUpload fd (some f) (AnalysisResponse.ok false d r) =
      (UploadOutcome.irrelevant,
        { fd with media := none, description := "" }) := by
  simp only [handleMediaUpload, if_neg hi]

/-- With an issue type chosen, the thrown-error branch of handleMediaUpload
keeps the held file and the cleared description. -/
theorem mediaUpload_err_form (fd : FormData) (f : MediaFile) (e : String)
    (hi : fd.issueType ≠ "") :
    handleMediaUpload fd (some f) (AnalysisResponse.err e) =
      (UploadOutcome.analysisFailed,
        { fd with media := some f, description := "" }) := by
  simp only [handleMediaUpload, if_neg hi]

/-- Claim C8 as amended: with an issue type chosen, a relevant classification
response makes the description the generated one with the media retained,
and an irrelevant response clears the held media and leaves the description
as the empty string set when the upload began. -/
theorem C8_amended_gate_branching (fd : FormData) (f : MediaFile) (d r : String)
    (hi : fd.issueType ≠ "") :
    ((handleMediaUpload fd (some f) (AnalysisResponse.ok true d r)).2.description
        = d ∧
      (handleMediaUpload fd (some f) (AnalysisResponse.ok true d r)).2.media
        = some f) ∧
    ((handleMediaUpload fd (some f) (AnalysisResponse.ok false d r)).2.media
        = none ∧
      (handleMediaUpload fd (some f) (AnalysisResponse.ok false d r)).2.description
        = "") := by
  rw [mediaUpload_ok_true_form fd f d r hi, mediaUpload_ok_false_form fd f d r hi]
  exact ⟨⟨rfl, rfl⟩, rfl, rfl⟩

/-- Witness for the amended C8 on the hand-described water form. -/
theorem C8_amended_gate_branching_witness :
    (handleMediaUpload fdPreDescribed (some { name := "leak.jpg" })
        (AnalysisResponse.ok true "Water pipe burst on the street" "")).2.description
      = "Water pipe burst on the street" ∧
    (handleMediaUpload fdPreDescribed (some { name := "leak.jpg" })
      (AnalysisResponse.ok false "Water pipe burst on the street" "")).2.media
      = none := by
  have h := C8_amended_gate_branching fdPreDescribed { name := "leak.jpg" }
    "Water pipe burst on the street" "" (by decide)
  exact ⟨h.1.1, h.2.1⟩

/-- Claim C9: a thrown or failed classification call lands in the distinct
analysis-failed branch — not the irrelevant-image branch — and the resulting
form still submits successfully once a manual description is entered, so the
failure does not block submission. -/
theorem C9_analysis_failed_distinct_and_degrades (fd : FormData)
    (f : MediaFile) (e d r : String) (hi : fd.issueType ≠ "") :
    (handleMediaUpload fd (some f) (AnalysisResponse.err e)).1 =
      UploadOutcome.analysisFailed ∧
    (handleMediaUpload fd (some f) (AnalysisResponse.err e)).1 ≠
      (handleMediaUpload fd (some f) (AnalysisResponse.ok false d r)).1 ∧
    ∀ (desc url : String) (env : SubmitEnv) (row : InsertedComplaint),
      desc ≠ "" → fd.state ≠ "" → fd.city ≠ "" →
      env.uploadResult = CallResult.ok url →
      env.insertResult = CallResult.ok row →
      (handleSubmit
        { (handleMediaUpload fd (some f) (AnalysisResponse.err e)).2 with
          description := desc } env).1 =
        SubmitResult.success row.complaint_code := by
  refine ⟨?_, ?_, ?_⟩
  · rw [mediaUpload_err_form fd f e hi]
  · rw [mediaUpload_err_form fd f e hi, mediaUpload_ok_false_form fd f d r hi]
    simp
  · intro desc url env row hdesc hst hct hu hins
    rw [mediaUpload_err_form fd f e hi]
    exact submit_ok_result _ env row hst hct hi hdesc (Or.inr ⟨url, hu⟩) hins

/-- Witness for C9: the analysis-failed branch on the water form, then a
successful submission with a hand-typed description. -/
theorem C9_analysis_failed_distinct_and_degrades_witness :
    (handleMediaUpload fdPreDescribed (some { name := "leak.jpg" })
      (AnalysisResponse.err "FunctionsFetchError")).1 =
      UploadOutcome.analysisFailed ∧
    (handleSubmit
      { (handleMediaUpload fdPreDescribed (some { name := "leak.jpg" })
          (AnalysisResponse.err "FunctionsFetchError")).2 with
        description := "Water pipe burst, typed by hand" } envAllOk).1 =
      SubmitResult.success "NGR123456" := by
  have h := C9_analysis_failed_distinct_and_degrades fdPreDescribed
    { name := "leak.jpg" } "FunctionsFetchError" "" "" (by decide)
  exact ⟨h.1, h.2.2 "Water pipe burst, typed by hand"
    "https://blob/complaints/1.jpg" envAllOk
    { id := "id-1", complaint_code := "NGR123456" }
    (by decide) (by decide) (by decide) rfl rfl⟩

/-- Claim C10: in the analysis-failure branch the held media set at the start
of the upload is retained and the description stays at the empty string set
when the upload began, every other form field is unchanged, and only the
irrelevant-image branch clears the held media. -/
theorem C10_analysis_failure_frame (fd : FormData) (f : MediaFile)
    (e d r : String) (hi : fd.issueType ≠ "") :
    ((handleMediaUpload fd (some f) (AnalysisResponse.err e)).2.media = some f ∧
      (handleMediaUpload fd (some f) (AnalysisResponse.err e)).2.description = "" ∧
      (handleMediaUpload fd (some f) (AnalysisResponse.err e)).2.state = fd.state ∧
      (handleMediaUpload fd (some f) (AnalysisResponse.err e)).2.city = fd.city ∧
      (handleMediaUpload fd (some f) (AnalysisResponse.err e)).2.district
        = fd.district ∧
      (handleMediaUpload fd (some f) (AnalysisResponse.err e)).2.address1
        = fd.address1 ∧
      (handleMediaUpload fd (some f) (AnalysisResponse.err e)).2.address2
        = fd.address2 ∧
      (handleMediaUpload fd (some f) (AnalysisResponse.err e)).2.issueType
        = fd.issueType ∧
      (handleMediaUpload fd (some f) (AnalysisResponse.err e)).2.audio
        = fd.audio) ∧
    (handleMediaUpload fd (some f) (AnalysisResponse.ok false d r)).2.media
      = none := by
  rw [mediaUpload_err_form fd f e hi, mediaUpload_ok_false_form fd f d r hi]
  exact ⟨⟨rfl, rfl, rfl, rfl, rfl, rfl, rfl, rfl, rfl⟩, rfl⟩

/-- Witness for C10 on the hand-described water form. -/
theorem C10_analysis_failure_frame_witness :
    (handleMediaUpload fdPreDescribed (some { name := "leak.jpg" })
      (AnalysisResponse.err "timeout")).2.media = some { name := "leak.jpg" } ∧
    (handleMediaUpload fdPreDescribed (some { name := "leak.jpg" })
      (AnalysisResponse.err "timeout")).2.issueType = fdPreDescribed.issueType := by
  have h := C10_analysis_failure_frame fdPreDescribed { name := "leak.jpg" }
    "timeout" "" "" (by decide)
  exact ⟨h.1.1, h.1.2.2.2.2.2.2.2.1⟩
